import Mathlib

set_option maxHeartbeats 1000000

/-!
Verification development for the ratellmiter ticket scheduler
(src/ratellmiter/rate_llmiter.py).  The Python classes are shallowly
embedded as Lean structures and pure functions: Python integers are
modelled by Int (they are unbounded), the probe interval (a Python float
that only ever holds the dyadic values 10, 15, 22.5, ... all exactly
representable) is modelled exactly by Rat, fallible code is modelled with
Except, and the in-place mutation of shared ticket objects is reflected
either by explicit value passing (with comments where aliasing matters) or
by the explicit ticket store model at the end of the definitions.
-/

/-- Module level constant MIN_TEST_IF_SERVICE_RESUMED_INTERVAL = 10. -/
def MIN_TEST_IF_SERVICE_RESUMED_INTERVAL : Rat := 10

/-- Module level constant MAX_TEST_IF_SERVICE_RESUMED_INTERVAL = 65. -/
def MAX_TEST_IF_SERVICE_RESUMED_INTERVAL : Rat := 65

/-- Module level constant INTERVAL_BACKOFF_RATE = 1.5 (exact in binary floating point). -/
def INTERVAL_BACKOFF_RATE : Rat := 1.5

/-- Python class RateLimitedEvent: one upstream 429/529 rejection record. -/
structure RateLimitedEvent where
  second_bucket_ticket_was_issued : Option Int
  second_bucket_ticket_was_limited : Int
  reissued_second_bucket_id : Option Int
  deriving DecidableEq

/-- RateLimitedEvent.is_waiting. -/
def RateLimitedEvent.is_waiting (e : RateLimitedEvent) : Bool :=
  e.reissued_second_bucket_id.isNone

/-- Python class RateLlmiterTicket: one admission request record. -/
structure RateLlmiterTicket where
  request_id : Int
  initial_request_second_bucket_id : Int
  user_request_id : Option String
  model_name : Option String
  issued_ticket : Option Int
  issued_second_bucket_id : Option Int
  finished_second_bucket_id : Option Int
  rate_limit_event_list : List RateLimitedEvent
  deriving DecidableEq

/-- RateLlmiterTicket.__init__ with the default values for the optional arguments. -/
def RateLlmiterTicket.new (request_id : Int) (initial_request_second_bucket_id : Int)
    (user_request_id : Option String) (model_name : Option String) : RateLlmiterTicket :=
  { request_id := request_id
    initial_request_second_bucket_id := initial_request_second_bucket_id
    user_request_id := user_request_id
    model_name := model_name
    issued_ticket := none
    issued_second_bucket_id := none
    finished_second_bucket_id := none
    rate_limit_event_list := [] }

/-- RateLlmiterTicket.has_issued_ticket: `self.issued_ticket is not None`. -/
def RateLlmiterTicket.has_issued_ticket (t : RateLlmiterTicket) : Bool :=
  t.issued_ticket.isSome

/-- RateLlmiterTicket.record_issued_ticket. -/
def RateLlmiterTicket.record_issued_ticket (t : RateLlmiterTicket)
    (issued_ticket : Int) (second_bucket_id : Int) : RateLlmiterTicket :=
  { t with issued_ticket := some issued_ticket,
           issued_second_bucket_id := some second_bucket_id }

/-- RateLlmiterTicket.add_rate_limited_event.  The Python method first sets
`self.issued_ticket = None` and `self.issued_second_bucket_id = None`, and only
then constructs `RateLimitedEvent(self.issued_second_bucket_id, second_bucket_id)`,
so the event is built from the already cleared issuance field.  The sequencing is
kept exactly. -/
def RateLlmiterTicket.add_rate_limited_event (t : RateLlmiterTicket)
    (second_bucket_id : Int) : RateLlmiterTicket :=
  let t := { t with issued_ticket := none, issued_second_bucket_id := none }
  let rate_limited_event : RateLimitedEvent :=
    { second_bucket_ticket_was_issued := t.issued_second_bucket_id,
      second_bucket_ticket_was_limited := second_bucket_id,
      reissued_second_bucket_id := none }
  { t with rate_limit_event_list := t.rate_limit_event_list ++ [rate_limited_event] }

/-- RateLlmiterTicket.resolve_rate_limited_event: sets
`self.rate_limit_event_list[-1].reissued_second_bucket_id`.  On an empty event
list Python raises IndexError; every call site guarantees a non-empty list, and
the model leaves the ticket unchanged in that unreachable case. -/
def RateLlmiterTicket.resolve_rate_limited_event (t : RateLlmiterTicket)
    (second_bucket_id : Int) : RateLlmiterTicket :=
  match t.rate_limit_event_list.getLast? with
  | some e =>
      { t with rate_limit_event_list :=
          t.rate_limit_event_list.dropLast ++
            [{ e with reissued_second_bucket_id := some second_bucket_id }] }
  | none => t

/-- RateLlmiterTicket.finish_request. -/
def RateLlmiterTicket.finish_request (t : RateLlmiterTicket)
    (second_bucket_id : Int) : RateLlmiterTicket :=
  { t with finished_second_bucket_id := some second_bucket_id }

/-- Python class SecondTicketBucket: one second of inventory and event lists. -/
structure SecondTicketBucket where
  second_bucket_id : Int
  second_requested_ticket_count : Int
  ticket_count : Int
  issued_ticket_count : Int
  issued_ticket_list : List RateLlmiterTicket
  overflow_request_list : List RateLlmiterTicket
  rate_limited_request_list : List RateLlmiterTicket
  finished_ticket_list : List RateLlmiterTicket
  deriving DecidableEq

/-- SecondTicketBucket.__init__ with the default values (fresh bucket). -/
def SecondTicketBucket.init (second_bucket_id : Int) : SecondTicketBucket :=
  { second_bucket_id := second_bucket_id
    second_requested_ticket_count := 0
    ticket_count := 0
    issued_ticket_count := 0
    issued_ticket_list := []
    overflow_request_list := []
    rate_limited_request_list := []
    finished_ticket_list := [] }

/-- SecondTicketBucket.issue_ticket: the only place a ticket is ever issued.
Mutates the bucket and the ticket; returns them together with the Bool that
the Python method returns. -/
def SecondTicketBucket.issue_ticket (b : SecondTicketBucket) (ticket : RateLlmiterTicket) :
    SecondTicketBucket × RateLlmiterTicket × Bool :=
  if b.issued_ticket_count < b.ticket_count then
    let t := ticket.record_issued_ticket (b.issued_ticket_count + 1) b.second_bucket_id
    ({ b with issued_ticket_count := b.issued_ticket_count + 1,
              issued_ticket_list := b.issued_ticket_list ++ [t] }, t, true)
  else (b, ticket, false)

/-- SecondTicketBucket.process_ticket_request delegates to issue_ticket and
returns the ticket. -/
def SecondTicketBucket.process_ticket_request (b : SecondTicketBucket)
    (ticket : RateLlmiterTicket) : SecondTicketBucket × RateLlmiterTicket × Bool :=
  b.issue_ticket ticket

/-- SecondTicketBucket.get_ticket. -/
def SecondTicketBucket.get_ticket (b : SecondTicketBucket) (request_id : Int)
    (user_request_id model_name : Option String) :
    SecondTicketBucket × RateLlmiterTicket :=
  let result := RateLlmiterTicket.new request_id b.second_bucket_id user_request_id model_name
  let b := { b with second_requested_ticket_count := b.second_requested_ticket_count + 1 }
  let (b, result, _) := b.process_ticket_request result
  if result.has_issued_ticket = false then
    ({ b with overflow_request_list := b.overflow_request_list ++ [result] }, result)
  else (b, result)

/-- SecondTicketBucket.finish_request. -/
def SecondTicketBucket.finish_request (b : SecondTicketBucket)
    (ticket : RateLlmiterTicket) : SecondTicketBucket :=
  let ticket := ticket.finish_request b.second_bucket_id
  { b with finished_ticket_list := b.finished_ticket_list ++ [ticket] }

/-- SecondTicketBucket.add_rate_limited_request: zeroes the inventory, records
the rate limited event on the ticket, stores the ticket on the rate limited
list. -/
def SecondTicketBucket.add_rate_limited_request (b : SecondTicketBucket)
    (ticket : RateLlmiterTicket) : SecondTicketBucket :=
  let b := { b with ticket_count := 0 }
  let ticket := ticket.add_rate_limited_event b.second_bucket_id
  { b with rate_limited_request_list := b.rate_limited_request_list ++ [ticket] }

/-- SecondTicketBucket.set_ticket_count, statement for statement:
start from max when the prior bucket issued max, else prior + delta, then
clamp with min against the max and max against the min. -/
def SecondTicketBucket.set_ticket_count (b : SecondTicketBucket)
    (max_ticket_count min_ticket_count prior_bucket_issued_tickets ticket_count_delta : Int) :
    SecondTicketBucket :=
  let tc :=
    if max_ticket_count = prior_bucket_issued_tickets then max_ticket_count
    else prior_bucket_issued_tickets + ticket_count_delta
  let tc := min tc max_ticket_count
  let tc := max tc min_ticket_count
  { b with ticket_count := tc }

/-- First loop of SecondTicketBucket.transfer_tickets, over the rate limited
candidates.  `ticket = copy.deepcopy(ticket)` is value semantics here.  In the
success branch Python mutates, via resolve_rate_limited_event, the very ticket
object that issue_ticket has just appended to issued_ticket_list, so the model
replaces that last list entry by the resolved ticket. -/
def SecondTicketBucket.transfer_rate_limited_loop (b : SecondTicketBucket)
    (released_ticket_list : List RateLlmiterTicket) :
    List RateLlmiterTicket → SecondTicketBucket × List RateLlmiterTicket
  | [] => (b, released_ticket_list)
  | ticket :: rest =>
      let (b2, t2, ok) := b.process_ticket_request ticket
      if t2.has_issued_ticket = false then
        SecondTicketBucket.transfer_rate_limited_loop
          { b2 with rate_limited_request_list := b2.rate_limited_request_list ++ [t2] }
          released_ticket_list rest
      else
        let t3 := t2.resolve_rate_limited_event b2.second_bucket_id
        let b3 :=
          if ok then { b2 with issued_ticket_list := b2.issued_ticket_list.dropLast ++ [t3] }
          else b2
        SecondTicketBucket.transfer_rate_limited_loop b3 (released_ticket_list ++ [t3]) rest

/-- Second loop of SecondTicketBucket.transfer_tickets, over the overflow
candidates from the previous bucket. -/
def SecondTicketBucket.transfer_overflow_loop (b : SecondTicketBucket)
    (released_ticket_list : List RateLlmiterTicket) :
    List RateLlmiterTicket → SecondTicketBucket × List RateLlmiterTicket
  | [] => (b, released_ticket_list)
  | ticket :: rest =>
      let (b2, t2, _ok) := b.process_ticket_request ticket
      if t2.has_issued_ticket = false then
        SecondTicketBucket.transfer_overflow_loop
          { b2 with overflow_request_list := b2.overflow_request_list ++ [t2] }
          released_ticket_list rest
      else
        SecondTicketBucket.transfer_overflow_loop b2 (released_ticket_list ++ [t2]) rest

/-- SecondTicketBucket.transfer_tickets: the rate limited candidates are
processed first, then the overflow candidates; returns the bucket and the
released ticket list. -/
def SecondTicketBucket.transfer_tickets (b : SecondTicketBucket)
    (unsatisfied_request_list rate_limited_request_list : List RateLlmiterTicket) :
    SecondTicketBucket × List RateLlmiterTicket :=
  let (b2, released) :=
    SecondTicketBucket.transfer_rate_limited_loop b [] rate_limited_request_list
  SecondTicketBucket.transfer_overflow_loop b2 released unsatisfied_request_list

/-- One observable mutating operation on a SecondTicketBucket, for stating
history invariants. -/
inductive BucketOp where
  | getTicketOp (request_id : Int) (user_request_id model_name : Option String)
  | finishRequestOp (ticket : RateLlmiterTicket)
  | addRateLimitedOp (ticket : RateLlmiterTicket)
  | setTicketCountOp (max_ticket_count min_ticket_count prior_bucket_issued_tickets ticket_count_delta : Int)
  | transferOp (unsatisfied_request_list rate_limited_request_list : List RateLlmiterTicket)

/-- Apply one bucket operation (discarding the value returned to the caller). -/
def stepBucket (b : SecondTicketBucket) : BucketOp → SecondTicketBucket
  | .getTicketOp rid u m => (b.get_ticket rid u m).1
  | .finishRequestOp t => b.finish_request t
  | .addRateLimitedOp t => b.add_rate_limited_request t
  | .setTicketCountOp a c p d => b.set_ticket_count a c p d
  | .transferOp u r => (b.transfer_tickets u r).1

/-- The per bucket accounting invariant: the issued counter equals the length
of the issued ticket list. -/
def issuedCountInv (b : SecondTicketBucket) : Prop :=
  b.issued_ticket_count = (b.issued_ticket_list.length : Int)

/-- Closed form helper for the transfer characterisation: stamp the candidates
with consecutive issue numbers starting above n, in this bucket, resolving the
trailing rate limited event when asked to. -/
def reissuedFrom (second_bucket_id : Int) (resolve_events : Bool) :
    Int → List RateLlmiterTicket → List RateLlmiterTicket
  | _, [] => []
  | n, ticket :: rest =>
      let t := ticket.record_issued_ticket (n + 1) second_bucket_id
      let t := if resolve_events then t.resolve_rate_limited_event second_bucket_id else t
      t :: reissuedFrom second_bucket_id resolve_events (n + 1) rest

/-- Python class MinuteTicketBucket (data only; the claims use its log
round trip and its per second buckets).  The second bucket list is modelled
as a plain list, i.e. an initialised bucket: Python sets the field to None
until init_second_bucket_list runs, and to_dict requires the initialised
form. -/
structure MinuteTicketBucket where
  rate_limiter_name : Option String
  iso_date_string : Option String
  start_time_in_seconds : Int
  max_tickets_per_second : Int
  start_ramp_ticket_count : Int
  ramp_ticket_count_delta : Int
  minute_requested_ticket_count : Int
  minute_finished_request_count : Int
  current_second_bucket_index : Int
  second_bucket_list : List SecondTicketBucket
  deriving DecidableEq

/-- The state of a threading.Event: just its internal flag. -/
structure ThreadingEvent where
  flag_is_set : Bool
  deriving DecidableEq

/-- threading.Event() starts with the flag unset. -/
def ThreadingEvent.new : ThreadingEvent := { flag_is_set := false }

/-- Event.clear(): reset the flag. -/
def ThreadingEvent.clear (e : ThreadingEvent) : ThreadingEvent :=
  { e with flag_is_set := false }

/-- Event.set(): raise the flag. -/
def ThreadingEvent.doSet (e : ThreadingEvent) : ThreadingEvent :=
  { e with flag_is_set := true }

/-- Event.wait() returns without blocking exactly when the flag is already
set at the moment the wait begins; otherwise the caller blocks until some
later Event.set() (which, for the one shot WaitingTicket, may never come). -/
def ThreadingEvent.waitReturnsWithoutBlocking (e : ThreadingEvent) : Bool :=
  e.flag_is_set

/-- Python class WaitingTicket: a ticket paired with its threading.Event. -/
structure WaitingTicket where
  ticket : RateLlmiterTicket
  event : ThreadingEvent
  deriving DecidableEq

/-- WaitingTicket.__init__. -/
def WaitingTicket.new (ticket : RateLlmiterTicket) : WaitingTicket :=
  { ticket := ticket, event := ThreadingEvent.new }

/-- The first statement of WaitingTicket.wait is `self.event.clear()`; only
then does the caller block on `self.event.wait()`.  This function returns the
event state at the moment the blocking wait begins. -/
def WaitingTicket.waitEntry (w : WaitingTicket) : WaitingTicket :=
  { w with event := w.event.clear }

/-- WaitingTicket.resume_request: `self.event.set()`. -/
def WaitingTicket.resume_request (w : WaitingTicket) : WaitingTicket :=
  { w with event := w.event.doSet }

/-- BucketRateLimiter.resume_request: under the limiter lock the waiter's
ticket reference is replaced by the revived ticket, then the event is set. -/
def BucketRateLimiter.resume_request_waiter (w : WaitingTicket)
    (ticket : RateLlmiterTicket) : WaitingTicket :=
  ({ w with ticket := ticket }).resume_request

/-- Python class BucketRateLimiterLock: the limiter state protected by the
limiter mutex.  The pending threading.Timer is modelled by the interval it
was scheduled with.  `service_test_delay` is an attribute that does not exist
until the resumed branch of test_if_service_resumed writes it; it is read
nowhere, hence the Option initialised to none. -/
structure BucketRateLimiterLock where
  next_request_index : Int
  current_minute_bucket : Option MinuteTicketBucket
  is_paused_by_rate_limit_exception : Bool
  waiting_ticket_dict : List (Int × WaitingTicket)
  test_if_service_resumed_timer : Option Rat
  service_test_interval : Rat
  service_test_delay : Option Rat
  deriving DecidableEq

/-- BucketRateLimiterLock.__init__. -/
def BucketRateLimiterLock.init : BucketRateLimiterLock :=
  { next_request_index := 0
    current_minute_bucket := none
    is_paused_by_rate_limit_exception := false
    waiting_ticket_dict := []
    test_if_service_resumed_timer := none
    service_test_interval := MIN_TEST_IF_SERVICE_RESUMED_INTERVAL
    service_test_delay := none }

/-- BucketRateLimiter.start_test_if_service_resumed_timer: schedule a one
shot timer at the current probe interval and remember it. -/
def BucketRateLimiter.start_test_if_service_resumed_timer
    (st : BucketRateLimiterLock) : BucketRateLimiterLock :=
  let current_interval := st.service_test_interval
  { st with test_if_service_resumed_timer := some current_interval }

/-- BucketRateLimiter.test_if_service_resumed.  The caller supplied probe
`self.rate_limited_service.ratellmiter_is_llm_blocked()` is passed in as an
Except value: `Except.error` when the predicate raises.  The Python body has
no try/except, so a raising predicate aborts the function before any state
change; if the probe answers blocked, the interval is multiplied by the
backoff rate, capped, and the timer is rescheduled; if it answers unblocked,
the paused flag is cleared, the timer reference dropped, and the value 10 is
written to the (otherwise unused) attribute `service_test_delay` - not to
`service_test_interval`. -/
def BucketRateLimiter.test_if_service_resumed (st : BucketRateLimiterLock)
    (blocked : Except Unit Bool) : Except Unit BucketRateLimiterLock :=
  match blocked with
  | .error e => .error e
  | .ok true =>
      let new_interval := min (st.service_test_interval * INTERVAL_BACKOFF_RATE) MAX_TEST_IF_SERVICE_RESUMED_INTERVAL
      let st := { st with service_test_interval := new_interval }
      .ok (BucketRateLimiter.start_test_if_service_resumed_timer st)
  | .ok false =>
      .ok { st with is_paused_by_rate_limit_exception := false,
                    test_if_service_resumed_timer := none,
                    service_test_delay := some MIN_TEST_IF_SERVICE_RESUMED_INTERVAL }

/-- The self describing values that appear in one line of the persisted log:
the image of Python dict / json encoding used by the to_dict methods. -/
inductive LogValue where
  | nullValue : LogValue
  | intValue (value : Int) : LogValue
  | strValue (value : String) : LogValue
  | arrValue (elems : List LogValue) : LogValue
  | objValue (fields : List (String × LogValue)) : LogValue

/-- Encoding of an optional integer attribute (None becomes null). -/
def optIntToLog : Option Int → LogValue
  | none => .nullValue
  | some i => .intValue i

/-- Decoding of an optional integer attribute. -/
def logToOptInt : LogValue → Option (Option Int)
  | .nullValue => some none
  | .intValue i => some (some i)
  | _ => none

/-- Encoding of an optional string attribute (None becomes null). -/
def optStrToLog : Option String → LogValue
  | none => .nullValue
  | some s => .strValue s

/-- Decoding of an optional string attribute. -/
def logToOptStr : LogValue → Option (Option String)
  | .nullValue => some none
  | .strValue s => some (some s)
  | _ => none

/-- Decoding of a mandatory integer attribute. -/
def logToInt : LogValue → Option Int
  | .intValue i => some i
  | _ => none

/-- Decoding of an array attribute. -/
def logToArr : LogValue → Option (List LogValue)
  | .arrValue l => some l
  | _ => none

/-- Keyword lookup in a decoded object, as done by `dict[key]` / `**dict`. -/
def lookupField : List (String × LogValue) → String → Option LogValue
  | [], _ => none
  | (k, v) :: rest, key => if k = key then some v else lookupField rest key

/-- RateLimitedEvent.to_dict. -/
def RateLimitedEvent.to_dict (e : RateLimitedEvent) : LogValue :=
  .objValue
    [("second_bucket_ticket_was_issued", optIntToLog e.second_bucket_ticket_was_issued),
     ("second_bucket_ticket_was_limited", .intValue e.second_bucket_ticket_was_limited),
     ("reissued_second_bucket_id", optIntToLog e.reissued_second_bucket_id)]

/-- RateLimitedEvent.from_dict: `RateLimitedEvent(**dict)`. -/
def RateLimitedEvent.from_dict (v : LogValue) : Option RateLimitedEvent :=
  match v with
  | .objValue fields => do
      let was_issued ← lookupField fields "second_bucket_ticket_was_issued" >>= logToOptInt
      let was_limited ← lookupField fields "second_bucket_ticket_was_limited" >>= logToInt
      let reissued ← lookupField fields "reissued_second_bucket_id" >>= logToOptInt
      pure { second_bucket_ticket_was_issued := was_issued,
             second_bucket_ticket_was_limited := was_limited,
             reissued_second_bucket_id := reissued }
  | _ => none

/-- RateLlmiterTicket.to_dict: every attribute, the event list encoded
element by element. -/
def RateLlmiterTicket.to_dict (t : RateLlmiterTicket) : LogValue :=
  .objValue
    [("request_id", .intValue t.request_id),
     ("initial_request_second_bucket_id", .intValue t.initial_request_second_bucket_id),
     ("user_request_id", optStrToLog t.user_request_id),
     ("model_name", optStrToLog t.model_name),
     ("issued_ticket", optIntToLog t.issued_ticket),
     ("issued_second_bucket_id", optIntToLog t.issued_second_bucket_id),
     ("finished_second_bucket_id", optIntToLog t.finished_second_bucket_id),
     ("rate_limit_event_list", .arrValue (t.rate_limit_event_list.map RateLimitedEvent.to_dict))]

/-- Decode a list of rate limit event records. -/
def decodeEventLogList : List LogValue → Option (List RateLimitedEvent)
  | [] => some []
  | v :: rest =>
      match RateLimitedEvent.from_dict v, decodeEventLogList rest with
      | some e, some es => some (e :: es)
      | _, _ => none

/-- RateLlmiterTicket.from_dict: decode the event list, then
`RateLlmiterTicket(**dict)`. -/
def RateLlmiterTicket.from_dict (v : LogValue) : Option RateLlmiterTicket :=
  match v with
  | .objValue fields => do
      let request_id ← lookupField fields "request_id" >>= logToInt
      let initial ← lookupField fields "initial_request_second_bucket_id" >>= logToInt
      let user_request_id ← lookupField fields "user_request_id" >>= logToOptStr
      let model_name ← lookupField fields "model_name" >>= logToOptStr
      let issued_ticket ← lookupField fields "issued_ticket" >>= logToOptInt
      let issued_second ← lookupField fields "issued_second_bucket_id" >>= logToOptInt
      let finished_second ← lookupField fields "finished_second_bucket_id" >>= logToOptInt
      let events ← lookupField fields "rate_limit_event_list" >>= logToArr >>= decodeEventLogList
      pure { request_id := request_id,
             initial_request_second_bucket_id := initial,
             user_request_id := user_request_id,
             model_name := model_name,
             issued_ticket := issued_ticket,
             issued_second_bucket_id := issued_second,
             finished_second_bucket_id := finished_second,
             rate_limit_event_list := events }
  | _ => none

/-- Decode a list of ticket records. -/
def decodeTicketLogList : List LogValue → Option (List RateLlmiterTicket)
  | [] => some []
  | v :: rest =>
      match RateLlmiterTicket.from_dict v, decodeTicketLogList rest with
      | some t, some ts => some (t :: ts)
      | _, _ => none

/-- SecondTicketBucket.to_dict. -/
def SecondTicketBucket.to_dict (b : SecondTicketBucket) : LogValue :=
  .objValue
    [("second_bucket_id", .intValue b.second_bucket_id),
     ("second_requested_ticket_count", .intValue b.second_requested_ticket_count),
     ("ticket_count", .intValue b.ticket_count),
     ("issued_ticket_count", .intValue b.issued_ticket_count),
     ("issued_ticket_list", .arrValue (b.issued_ticket_list.map RateLlmiterTicket.to_dict)),
     ("overflow_request_list", .arrValue (b.overflow_request_list.map RateLlmiterTicket.to_dict)),
     ("rate_limited_request_list", .arrValue (b.rate_limited_request_list.map RateLlmiterTicket.to_dict)),
     ("finished_ticket_list", .arrValue (b.finished_ticket_list.map RateLlmiterTicket.to_dict))]

/-- SecondTicketBucket.from_dict: decode the four ticket lists, then
`SecondTicketBucket(**dict)`. -/
def SecondTicketBucket.from_dict (v : LogValue) : Option SecondTicketBucket :=
  match v with
  | .objValue fields => do
      let second_bucket_id ← lookupField fields "second_bucket_id" >>= logToInt
      let requested ← lookupField fields "second_requested_ticket_count" >>= logToInt
      let ticket_count ← lookupField fields "ticket_count" >>= logToInt
      let issued_count ← lookupField fields "issued_ticket_count" >>= logToInt
      let issued_list ← lookupField fields "issued_ticket_list" >>= logToArr >>= decodeTicketLogList
      let overflow_list ← lookupField fields "overflow_request_list" >>= logToArr >>= decodeTicketLogList
      let rate_limited_list ← lookupField fields "rate_limited_request_list" >>= logToArr >>= decodeTicketLogList
      let finished_list ← lookupField fields "finished_ticket_list" >>= logToArr >>= decodeTicketLogList
      pure { second_bucket_id := second_bucket_id,
             second_requested_ticket_count := requested,
             ticket_count := ticket_count,
             issued_ticket_count := issued_count,
             issued_ticket_list := issued_list,
             overflow_request_list := overflow_list,
             rate_limited_request_list := rate_limited_list,
             finished_ticket_list := finished_list }
  | _ => none

/-- Decode a list of second bucket records. -/
def decodeSecondBucketLogList : List LogValue → Option (List SecondTicketBucket)
  | [] => some []
  | v :: rest =>
      match SecondTicketBucket.from_dict v, decodeSecondBucketLogList rest with
      | some b, some bs => some (b :: bs)
      | _, _ => none

/-- MinuteTicketBucket.to_dict: the representation of one log line. -/
def MinuteTicketBucket.to_dict (m : MinuteTicketBucket) : LogValue :=
  .objValue
    [("rate_limiter_name", optStrToLog m.rate_limiter_name),
     ("iso_date_string", optStrToLog m.iso_date_string),
     ("start_time_in_seconds", .intValue m.start_time_in_seconds),
     ("max_tickets_per_second", .intValue m.max_tickets_per_second),
     ("start_ramp_ticket_count", .intValue m.start_ramp_ticket_count),
     ("ramp_ticket_count_delta", .intValue m.ramp_ticket_count_delta),
     ("minute_requested_ticket_count", .intValue m.minute_requested_ticket_count),
     ("minute_finished_request_count", .intValue m.minute_finished_request_count),
     ("current_second_bucket_index", .intValue m.current_second_bucket_index),
     ("second_bucket_list", .arrValue (m.second_bucket_list.map SecondTicketBucket.to_dict))]

/-- MinuteTicketBucket.from_dict: decode the second bucket list, then
`MinuteTicketBucket(**dict)`. -/
def MinuteTicketBucket.from_dict (v : LogValue) : Option MinuteTicketBucket :=
  match v with
  | .objValue fields => do
      let name ← lookupField fields "rate_limiter_name" >>= logToOptStr
      let iso ← lookupField fields "iso_date_string" >>= logToOptStr
      let start_time ← lookupField fields "start_time_in_seconds" >>= logToInt
      let max_tickets ← lookupField fields "max_tickets_per_second" >>= logToInt
      let start_ramp ← lookupField fields "start_ramp_ticket_count" >>= logToInt
      let ramp_delta ← lookupField fields "ramp_ticket_count_delta" >>= logToInt
      let requested ← lookupField fields "minute_requested_ticket_count" >>= logToInt
      let finished ← lookupField fields "minute_finished_request_count" >>= logToInt
      let index ← lookupField fields "current_second_bucket_index" >>= logToInt
      let buckets ← lookupField fields "second_bucket_list" >>= logToArr >>= decodeSecondBucketLogList
      pure { rate_limiter_name := name,
             iso_date_string := iso,
             start_time_in_seconds := start_time,
             max_tickets_per_second := max_tickets,
             start_ramp_ticket_count := start_ramp,
             ramp_ticket_count_delta := ramp_delta,
             minute_requested_ticket_count := requested,
             minute_finished_request_count := finished,
             current_second_bucket_index := index,
             second_bucket_list := buckets }
  | _ => none

/-!
The ticket store model.  The pure functions above use value semantics, which
cannot even state what `copy.deepcopy` buys in transfer_tickets: that the
ticket objects referenced by the previous bucket's lists are left untouched
and that every promoted ticket is a fresh object.  The model below makes
Python object identity explicit: a store is the sequence of every allocated
ticket object, a reference is its index, and the bucket lists hold
references. -/

/-- A reference to a ticket object: its index in the allocation order. -/
abbrev TicketRef := Nat

/-- The collection of every allocated ticket object. -/
abbrev TicketStore := List RateLlmiterTicket

/-- Dereference. -/
def TicketStore.readRef : TicketStore → TicketRef → Option RateLlmiterTicket
  | [], _ => none
  | t :: _, 0 => some t
  | _ :: rest, r + 1 => TicketStore.readRef rest r

/-- Overwrite the object behind a reference. -/
def TicketStore.writeRef : TicketStore → TicketRef → RateLlmiterTicket → TicketStore
  | [], _, _ => []
  | _ :: rest, 0, t => t :: rest
  | x :: rest, r + 1, t => x :: TicketStore.writeRef rest r t

/-- Allocate a new object and return its reference. -/
def TicketStore.allocRef (s : TicketStore) (t : RateLlmiterTicket) : TicketStore × TicketRef :=
  (s ++ [t], s.length)

/-- Mutate the object behind a reference in place. -/
def TicketStore.modifyRef (s : TicketStore) (r : TicketRef)
    (f : RateLlmiterTicket → RateLlmiterTicket) : TicketStore :=
  match s.readRef r with
  | some t => s.writeRef r (f t)
  | none => s

/-- `copy.deepcopy(ticket)`: allocate a fresh object holding the same value.
A dangling reference cannot arise from the modelled code; the fallback
allocates a blank ticket so the function stays total. -/
def TicketStore.deepcopyRef (s : TicketStore) (r : TicketRef) : TicketStore × TicketRef :=
  match s.readRef r with
  | some t => s.allocRef t
  | none => s.allocRef (RateLlmiterTicket.new 0 0 none none)

/-- `ticket.has_issued_ticket()` read through a reference. -/
def TicketStore.refHasIssuedTicket (s : TicketStore) (r : TicketRef) : Bool :=
  match s.readRef r with
  | some t => t.has_issued_ticket
  | none => false

/-- SecondTicketBucket with its ticket lists holding object references. -/
structure SecondTicketBucketH where
  second_bucket_id : Int
  second_requested_ticket_count : Int
  ticket_count : Int
  issued_ticket_count : Int
  issued_ticket_list : List TicketRef
  overflow_request_list : List TicketRef
  rate_limited_request_list : List TicketRef
  finished_ticket_list : List TicketRef
  deriving DecidableEq

/-- SecondTicketBucket.issue_ticket on the store model: mutates the
referenced ticket object in place and appends the reference to the issued
list. -/
def SecondTicketBucketH.issue_ticket (s : TicketStore) (b : SecondTicketBucketH)
    (r : TicketRef) : TicketStore × SecondTicketBucketH × Bool :=
  if b.issued_ticket_count < b.ticket_count then
    let s := s.modifyRef r
      (fun t => t.record_issued_ticket (b.issued_ticket_count + 1) b.second_bucket_id)
    (s, { b with issued_ticket_count := b.issued_ticket_count + 1,
                 issued_ticket_list := b.issued_ticket_list ++ [r] }, true)
  else (s, b, false)

/-- First loop of transfer_tickets on the store model: deep copy the
candidate, attempt issuance on the copy, file the copy by outcome; on
success the trailing rate limit event of the copy is resolved in place. -/
def SecondTicketBucketH.transfer_rate_limited_loop (s : TicketStore)
    (b : SecondTicketBucketH) (released_ticket_list : List TicketRef) :
    List TicketRef → TicketStore × SecondTicketBucketH × List TicketRef
  | [] => (s, b, released_ticket_list)
  | r :: rest =>
      let (s, r2) := s.deepcopyRef r
      let (s, b2, _ok) := SecondTicketBucketH.issue_ticket s b r2
      if s.refHasIssuedTicket r2 = false then
        SecondTicketBucketH.transfer_rate_limited_loop s
          { b2 with rate_limited_request_list := b2.rate_limited_request_list ++ [r2] }
          released_ticket_list rest
      else
        let s := s.modifyRef r2 (fun t => t.resolve_rate_limited_event b2.second_bucket_id)
        SecondTicketBucketH.transfer_rate_limited_loop s b2
          (released_ticket_list ++ [r2]) rest

/-- Second loop of transfer_tickets on the store model, over the overflow
candidates. -/
def SecondTicketBucketH.transfer_overflow_loop (s : TicketStore)
    (b : SecondTicketBucketH) (released_ticket_list : List TicketRef) :
    List TicketRef → TicketStore × SecondTicketBucketH × List TicketRef
  | [] => (s, b, released_ticket_list)
  | r :: rest =>
      let (s, r2) := s.deepcopyRef r
      let (s, b2, _ok) := SecondTicketBucketH.issue_ticket s b r2
      if s.refHasIssuedTicket r2 = false then
        SecondTicketBucketH.transfer_overflow_loop s
          { b2 with overflow_request_list := b2.overflow_request_list ++ [r2] }
          released_ticket_list rest
      else
        SecondTicketBucketH.transfer_overflow_loop s b2
          (released_ticket_list ++ [r2]) rest

/-- SecondTicketBucket.transfer_tickets on the store model: the previous
bucket's lists are passed as reference lists and are never written. -/
def SecondTicketBucketH.transfer_tickets (s : TicketStore) (b : SecondTicketBucketH)
    (unsatisfied_request_list rate_limited_request_list : List TicketRef) :
    TicketStore × SecondTicketBucketH × List TicketRef :=
  let (s, b2, released) :=
    SecondTicketBucketH.transfer_rate_limited_loop s b [] rate_limited_request_list
  SecondTicketBucketH.transfer_overflow_loop s b2 released unsatisfied_request_list

/-- Sample data for the closed witness statements: a ticket that was issued in
second 100 and reported a 429 in second 101 (its issuance fields already
cleared by add_rate_limited_event, its event list non empty). -/
def sampleRateLimitedTicket : RateLlmiterTicket :=
  { request_id := 1, initial_request_second_bucket_id := 100, user_request_id := none,
    model_name := none, issued_ticket := none, issued_second_bucket_id := none,
    finished_second_bucket_id := none,
    rate_limit_event_list := [{ second_bucket_ticket_was_issued := some 100,
                                second_bucket_ticket_was_limited := 101,
                                reissued_second_bucket_id := none }] }

/-- Sample data: a fresh never issued overflow ticket. -/
def sampleFreshTicket : RateLlmiterTicket := RateLlmiterTicket.new 0 100 none none

/-- Sample data: the second bucket of second 102 with two tickets of inventory. -/
def sampleBucket : SecondTicketBucket :=
  { SecondTicketBucket.init 102 with ticket_count := 2 }

/-- Sample data: a one object ticket store. -/
def sampleStore : TicketStore := [sampleRateLimitedTicket]

/-- Sample data: the store model bucket of second 102 with one ticket of
inventory and no references yet. -/
def sampleBucketH : SecondTicketBucketH :=
  { second_bucket_id := 102, second_requested_ticket_count := 0, ticket_count := 1,
    issued_ticket_count := 0, issued_ticket_list := [], overflow_request_list := [],
    rate_limited_request_list := [], finished_ticket_list := [] }

/-- Sample data: a paused limiter whose probe interval has already been backed
off once, to 15 seconds, with the matching probe timer pending. -/
def samplePausedLockState : BucketRateLimiterLock :=
  { BucketRateLimiterLock.init with
      is_paused_by_rate_limit_exception := true,
      test_if_service_resumed_timer := some 15,
      service_test_interval := 15 }

/-- Sample data: a freshly paused limiter, probe timer just scheduled at the
initial 10 second interval. -/
def sampleFreshPausedLockState : BucketRateLimiterLock :=
  BucketRateLimiter.start_test_if_service_resumed_timer
    { BucketRateLimiterLock.init with is_paused_by_rate_limit_exception := true }

/-! Helper lemmas. -/

theorem logToOptInt_optIntToLog (x : Option Int) : logToOptInt (optIntToLog x) = some x := by
  cases x <;> rfl

theorem logToOptStr_optStrToLog (x : Option String) : logToOptStr (optStrToLog x) = some x := by
  cases x <;> rfl

theorem event_log_roundtrip (e : RateLimitedEvent) :
    RateLimitedEvent.from_dict e.to_dict = some e := by
  simp [RateLimitedEvent.from_dict, RateLimitedEvent.to_dict, lookupField,
    logToOptInt_optIntToLog, logToInt]

theorem decodeEventLogList_roundtrip (l : List RateLimitedEvent) :
    decodeEventLogList (l.map RateLimitedEvent.to_dict) = some l := by
  induction l with
  | nil => rfl
  | cons e rest ih => simp [decodeEventLogList, event_log_roundtrip, ih]

theorem ticket_log_roundtrip (t : RateLlmiterTicket) :
    RateLlmiterTicket.from_dict t.to_dict = some t := by
  simp [RateLlmiterTicket.from_dict, RateLlmiterTicket.to_dict, lookupField,
    logToOptInt_optIntToLog, logToOptStr_optStrToLog, logToInt, logToArr,
    decodeEventLogList_roundtrip]

theorem decodeTicketLogList_roundtrip (l : List RateLlmiterTicket) :
    decodeTicketLogList (l.map RateLlmiterTicket.to_dict) = some l := by
  induction l with
  | nil => rfl
  | cons t rest ih => simp [decodeTicketLogList, ticket_log_roundtrip, ih]

theorem second_bucket_log_roundtrip (b : SecondTicketBucket) :
    SecondTicketBucket.from_dict b.to_dict = some b := by
  simp [SecondTicketBucket.from_dict, SecondTicketBucket.to_dict, lookupField,
    logToInt, logToArr, decodeTicketLogList_roundtrip]

theorem decodeSecondBucketLogList_roundtrip (l : List SecondTicketBucket) :
    decodeSecondBucketLogList (l.map SecondTicketBucket.to_dict) = some l := by
  induction l with
  | nil => rfl
  | cons b rest ih => simp [decodeSecondBucketLogList, second_bucket_log_roundtrip, ih]

theorem transfer_rate_limited_loop_spec (l : List RateLlmiterTicket) :
    ∀ (b : SecondTicketBucket) (rel : List RateLlmiterTicket),
    (∀ t ∈ l, t.issued_ticket = none) →
    SecondTicketBucket.transfer_rate_limited_loop b rel l =
      ({ b with
          issued_ticket_count := b.issued_ticket_count +
            ((min l.length (b.ticket_count - b.issued_ticket_count).toNat : Nat) : Int),
          issued_ticket_list := b.issued_ticket_list ++
            reissuedFrom b.second_bucket_id true b.issued_ticket_count
              (l.take (min l.length (b.ticket_count - b.issued_ticket_count).toNat)),
          rate_limited_request_list := b.rate_limited_request_list ++
            l.drop (min l.length (b.ticket_count - b.issued_ticket_count).toNat) },
       rel ++ reissuedFrom b.second_bucket_id true b.issued_ticket_count
         (l.take (min l.length (b.ticket_count - b.issued_ticket_count).toNat))) := by
  induction l with
  | nil =>
      intro b rel _
      simp [SecondTicketBucket.transfer_rate_limited_loop, reissuedFrom]
  | cons t rest ih =>
      intro b rel h
      have ht : t.issued_ticket = none := h t (by simp)
      have hrest : ∀ x ∈ rest, x.issued_ticket = none := fun x hx => h x (by simp [hx])
      by_cases hcap : b.issued_ticket_count < b.ticket_count
      · have hk : min (t :: rest).length (b.ticket_count - b.issued_ticket_count).toNat =
            min rest.length (b.ticket_count - (b.issued_ticket_count + 1)).toNat + 1 := by
          simp only [List.length_cons]; omega
        have step : SecondTicketBucket.transfer_rate_limited_loop b rel (t :: rest) =
            SecondTicketBucket.transfer_rate_limited_loop
              { b with issued_ticket_count := b.issued_ticket_count + 1,
                       issued_ticket_list := b.issued_ticket_list ++
                         [(t.record_issued_ticket (b.issued_ticket_count + 1)
                             b.second_bucket_id).resolve_rate_limited_event b.second_bucket_id] }
              (rel ++ [(t.record_issued_ticket (b.issued_ticket_count + 1)
                 b.second_bucket_id).resolve_rate_limited_event b.second_bucket_id]) rest := by
          simp [SecondTicketBucket.transfer_rate_limited_loop,
            SecondTicketBucket.process_ticket_request, SecondTicketBucket.issue_ticket,
            if_pos hcap, RateLlmiterTicket.has_issued_ticket,
            RateLlmiterTicket.record_issued_ticket, List.dropLast_concat]
        rw [step, ih _ _ hrest]
        simp only [hk]
        simp [reissuedFrom, List.take_succ_cons, List.drop_succ_cons]
        ring
      · have hk0 : (b.ticket_count - b.issued_ticket_count).toNat = 0 := by omega
        have step : SecondTicketBucket.transfer_rate_limited_loop b rel (t :: rest) =
            SecondTicketBucket.transfer_rate_limited_loop
              { b with rate_limited_request_list := b.rate_limited_request_list ++ [t] }
              rel rest := by
          simp [SecondTicketBucket.transfer_rate_limited_loop,
            SecondTicketBucket.process_ticket_request, SecondTicketBucket.issue_ticket,
            if_neg hcap, RateLlmiterTicket.has_issued_ticket, ht]
        rw [step, ih _ _ hrest]
        simp [hk0, reissuedFrom]

theorem transfer_overflow_loop_spec (l : List RateLlmiterTicket) :
    ∀ (b : SecondTicketBucket) (rel : List RateLlmiterTicket),
    (∀ t ∈ l, t.issued_ticket = none) →
    SecondTicketBucket.transfer_overflow_loop b rel l =
      ({ b with
          issued_ticket_count := b.issued_ticket_count +
            ((min l.length (b.ticket_count - b.issued_ticket_count).toNat : Nat) : Int),
          issued_ticket_list := b.issued_ticket_list ++
            reissuedFrom b.second_bucket_id false b.issued_ticket_count
              (l.take (min l.length (b.ticket_count - b.issued_ticket_count).toNat)),
          overflow_request_list := b.overflow_request_list ++
            l.drop (min l.length (b.ticket_count - b.issued_ticket_count).toNat) },
       rel ++ reissuedFrom b.second_bucket_id false b.issued_ticket_count
         (l.take (min l.length (b.ticket_count - b.issued_ticket_count).toNat))) := by
  induction l with
  | nil =>
      intro b rel _
      simp [SecondTicketBucket.transfer_overflow_loop, reissuedFrom]
  | cons t rest ih =>
      intro b rel h
      have ht : t.issued_ticket = none := h t (by simp)
      have hrest : ∀ x ∈ rest, x.issued_ticket = none := fun x hx => h x (by simp [hx])
      by_cases hcap : b.issued_ticket_count < b.ticket_count
      · have hk : min (t :: rest).length (b.ticket_count - b.issued_ticket_count).toNat =
            min rest.length (b.ticket_count - (b.issued_ticket_count + 1)).toNat + 1 := by
          simp only [List.length_cons]; omega
        have step : SecondTicketBucket.transfer_overflow_loop b rel (t :: rest) =
            SecondTicketBucket.transfer_overflow_loop
              { b with issued_ticket_count := b.issued_ticket_count + 1,
                       issued_ticket_list := b.issued_ticket_list ++
                         [t.record_issued_ticket (b.issued_ticket_count + 1) b.second_bucket_id] }
              (rel ++ [t.record_issued_ticket (b.issued_ticket_count + 1) b.second_bucket_id])
              rest := by
          simp [SecondTicketBucket.transfer_overflow_loop,
            SecondTicketBucket.process_ticket_request, SecondTicketBucket.issue_ticket,
            if_pos hcap, RateLlmiterTicket.has_issued_ticket,
            RateLlmiterTicket.record_issued_ticket]
        rw [step, ih _ _ hrest]
        simp only [hk]
        simp [reissuedFrom, List.take_succ_cons, List.drop_succ_cons]
        ring
      · have hk0 : (b.ticket_count - b.issued_ticket_count).toNat = 0 := by omega
        have step : SecondTicketBucket.transfer_overflow_loop b rel (t :: rest) =
            SecondTicketBucket.transfer_overflow_loop
              { b with overflow_request_list := b.overflow_request_list ++ [t] }
              rel rest := by
          simp [SecondTicketBucket.transfer_overflow_loop,
            SecondTicketBucket.process_ticket_request, SecondTicketBucket.issue_ticket,
            if_neg hcap, RateLlmiterTicket.has_issued_ticket, ht]
        rw [step, ih _ _ hrest]
        simp [hk0, reissuedFrom]

theorem transfer_tickets_spec (b : SecondTicketBucket)
    (unsatisfied_request_list rate_limited_request_list : List RateLlmiterTicket)
    (hrl : ∀ t ∈ rate_limited_request_list, t.issued_ticket = none)
    (hof : ∀ t ∈ unsatisfied_request_list, t.issued_ticket = none) :
    b.transfer_tickets unsatisfied_request_list rate_limited_request_list =
      ({ b with
          issued_ticket_count := b.issued_ticket_count +
            ((min rate_limited_request_list.length
               (b.ticket_count - b.issued_ticket_count).toNat : Nat) : Int) +
            ((min unsatisfied_request_list.length
               ((b.ticket_count - b.issued_ticket_count).toNat -
                 min rate_limited_request_list.length
                   (b.ticket_count - b.issued_ticket_count).toNat) : Nat) : Int),
          issued_ticket_list := b.issued_ticket_list ++
            reissuedFrom b.second_bucket_id true b.issued_ticket_count
              (rate_limited_request_list.take
                (min rate_limited_request_list.length
                  (b.ticket_count - b.issued_ticket_count).toNat)) ++
            reissuedFrom b.second_bucket_id false
              (b.issued_ticket_count +
                ((min rate_limited_request_list.length
                   (b.ticket_count - b.issued_ticket_count).toNat : Nat) : Int))
              (unsatisfied_request_list.take
                (min unsatisfied_request_list.length
                  ((b.ticket_count - b.issued_ticket_count).toNat -
                    min rate_limited_request_list.length
                      (b.ticket_count - b.issued_ticket_count).toNat))),
          rate_limited_request_list := b.rate_limited_request_list ++
            rate_limited_request_list.drop
              (min rate_limited_request_list.length
                (b.ticket_count - b.issued_ticket_count).toNat),
          overflow_request_list := b.overflow_request_list ++
            unsatisfied_request_list.drop
              (min unsatisfied_request_list.length
                ((b.ticket_count - b.issued_ticket_count).toNat -
                  min rate_limited_request_list.length
                    (b.ticket_count - b.issued_ticket_count).toNat)) },
       reissuedFrom b.second_bucket_id true b.issued_ticket_count
         (rate_limited_request_list.take
           (min rate_limited_request_list.length
             (b.ticket_count - b.issued_ticket_count).toNat)) ++
       reissuedFrom b.second_bucket_id false
         (b.issued_ticket_count +
           ((min rate_limited_request_list.length
              (b.ticket_count - b.issued_ticket_count).toNat : Nat) : Int))
         (unsatisfied_request_list.take
           (min unsatisfied_request_list.length
             ((b.ticket_count - b.issued_ticket_count).toNat -
               min rate_limited_request_list.length
                 (b.ticket_count - b.issued_ticket_count).toNat)))) := by
  unfold SecondTicketBucket.transfer_tickets
  rw [transfer_rate_limited_loop_spec _ _ _ hrl]
  dsimp only
  rw [transfer_overflow_loop_spec _ _ _ hof]
  have hslack : (b.ticket_count -
      (b.issued_ticket_count +
        ((min rate_limited_request_list.length
          (b.ticket_count - b.issued_ticket_count).toNat : Nat) : Int))).toNat =
      (b.ticket_count - b.issued_ticket_count).toNat -
        min rate_limited_request_list.length
          (b.ticket_count - b.issued_ticket_count).toNat := by
    have := Nat.min_le_right rate_limited_request_list.length
      (b.ticket_count - b.issued_ticket_count).toNat
    omega
  simp only [hslack]
  simp [List.append_assoc]

theorem issuedCountInv_transfer_rate_limited_loop (l : List RateLlmiterTicket) :
    ∀ (b : SecondTicketBucket) (rel : List RateLlmiterTicket), issuedCountInv b →
    issuedCountInv (SecondTicketBucket.transfer_rate_limited_loop b rel l).1 := by
  induction l with
  | nil => intro b rel hb; simpa [SecondTicketBucket.transfer_rate_limited_loop]
  | cons t rest ih =>
      intro b rel hb
      by_cases hcap : b.issued_ticket_count < b.ticket_count
      · have step : SecondTicketBucket.transfer_rate_limited_loop b rel (t :: rest) =
            SecondTicketBucket.transfer_rate_limited_loop
              { b with issued_ticket_count := b.issued_ticket_count + 1,
                       issued_ticket_list := b.issued_ticket_list ++
                         [(t.record_issued_ticket (b.issued_ticket_count + 1)
                             b.second_bucket_id).resolve_rate_limited_event b.second_bucket_id] }
              (rel ++ [(t.record_issued_ticket (b.issued_ticket_count + 1)
                 b.second_bucket_id).resolve_rate_limited_event b.second_bucket_id]) rest := by
          simp [SecondTicketBucket.transfer_rate_limited_loop,
            SecondTicketBucket.process_ticket_request, SecondTicketBucket.issue_ticket,
            if_pos hcap, RateLlmiterTicket.has_issued_ticket,
            RateLlmiterTicket.record_issued_ticket, List.dropLast_concat]
        rw [step]
        apply ih
        unfold issuedCountInv at *
        simp only [List.length_append, List.length_cons, List.length_nil]
        omega
      · by_cases hiss : t.has_issued_ticket = false
        · have step : SecondTicketBucket.transfer_rate_limited_loop b rel (t :: rest) =
              SecondTicketBucket.transfer_rate_limited_loop
                { b with rate_limited_request_list := b.rate_limited_request_list ++ [t] }
                rel rest := by
            simp [SecondTicketBucket.transfer_rate_limited_loop,
              SecondTicketBucket.process_ticket_request, SecondTicketBucket.issue_ticket,
              if_neg hcap, hiss]
          rw [step]
          apply ih
          unfold issuedCountInv at *
          simpa using hb
        · have step : SecondTicketBucket.transfer_rate_limited_loop b rel (t :: rest) =
              SecondTicketBucket.transfer_rate_limited_loop b
                (rel ++ [t.resolve_rate_limited_event b.second_bucket_id]) rest := by
            simp [SecondTicketBucket.transfer_rate_limited_loop,
              SecondTicketBucket.process_ticket_request, SecondTicketBucket.issue_ticket,
              if_neg hcap, hiss]
          rw [step]
          exact ih _ _ hb

theorem issuedCountInv_transfer_overflow_loop (l : List RateLlmiterTicket) :
    ∀ (b : SecondTicketBucket) (rel : List RateLlmiterTicket), issuedCountInv b →
    issuedCountInv (SecondTicketBucket.transfer_overflow_loop b rel l).1 := by
  induction l with
  | nil => intro b rel hb; simpa [SecondTicketBucket.transfer_overflow_loop]
  | cons t rest ih =>
      intro b rel hb
      by_cases hcap : b.issued_ticket_count < b.ticket_count
      · have step : SecondTicketBucket.transfer_overflow_loop b rel (t :: rest) =
            SecondTicketBucket.transfer_overflow_loop
              { b with issued_ticket_count := b.issued_ticket_count + 1,
                       issued_ticket_list := b.issued_ticket_list ++
                         [t.record_issued_ticket (b.issued_ticket_count + 1) b.second_bucket_id] }
              (rel ++ [t.record_issued_ticket (b.issued_ticket_count + 1) b.second_bucket_id])
              rest := by
          simp [SecondTicketBucket.transfer_overflow_loop,
            SecondTicketBucket.process_ticket_request, SecondTicketBucket.issue_ticket,
            if_pos hcap, RateLlmiterTicket.has_issued_ticket,
            RateLlmiterTicket.record_issued_ticket]
        rw [step]
        apply ih
        unfold issuedCountInv at *
        simp only [List.length_append, List.length_cons, List.length_nil]
        omega
      · by_cases hiss : t.has_issued_ticket = false
        · have step : SecondTicketBucket.transfer_overflow_loop b rel (t :: rest) =
              SecondTicketBucket.transfer_overflow_loop
                { b with overflow_request_list := b.overflow_request_list ++ [t] }
                rel rest := by
            simp [SecondTicketBucket.transfer_overflow_loop,
              SecondTicketBucket.process_ticket_request, SecondTicketBucket.issue_ticket,
              if_neg hcap, hiss]
          rw [step]
          apply ih
          unfold issuedCountInv at *
          simpa using hb
        · have step : SecondTicketBucket.transfer_overflow_loop b rel (t :: rest) =
              SecondTicketBucket.transfer_overflow_loop b (rel ++ [t]) rest := by
            simp [SecondTicketBucket.transfer_overflow_loop,
              SecondTicketBucket.process_ticket_request, SecondTicketBucket.issue_ticket,
              if_neg hcap, hiss]
          rw [step]
          exact ih _ _ hb

theorem issuedCountInv_stepBucket (b : SecondTicketBucket) (op : BucketOp)
    (hb : issuedCountInv b) : issuedCountInv (stepBucket b op) := by
  cases op with
  | getTicketOp rid u m =>
      unfold stepBucket SecondTicketBucket.get_ticket SecondTicketBucket.process_ticket_request
        SecondTicketBucket.issue_ticket
      by_cases hcap : b.issued_ticket_count < b.ticket_count
      · simp only [if_pos hcap]
        unfold issuedCountInv at *
        simp [RateLlmiterTicket.has_issued_ticket, RateLlmiterTicket.record_issued_ticket]
        omega
      · simp only [if_neg hcap]
        unfold issuedCountInv at *
        simp [RateLlmiterTicket.has_issued_ticket, RateLlmiterTicket.new]
        exact hb
  | finishRequestOp t =>
      unfold stepBucket SecondTicketBucket.finish_request
      unfold issuedCountInv at *
      simpa using hb
  | addRateLimitedOp t =>
      unfold stepBucket SecondTicketBucket.add_rate_limited_request
      unfold issuedCountInv at *
      simpa using hb
  | setTicketCountOp a c p d =>
      unfold stepBucket SecondTicketBucket.set_ticket_count
      unfold issuedCountInv at *
      simpa using hb
  | transferOp u r =>
      have h1 := issuedCountInv_transfer_rate_limited_loop r b [] hb
      cases hpair : SecondTicketBucket.transfer_rate_limited_loop b [] r with
      | mk b2 rel2 =>
          rw [hpair] at h1
          simp only [stepBucket, SecondTicketBucket.transfer_tickets, hpair]
          exact issuedCountInv_transfer_overflow_loop u b2 rel2 h1

theorem issuedCountInv_foldl (ops : List BucketOp) :
    ∀ b : SecondTicketBucket, issuedCountInv b → issuedCountInv (ops.foldl stepBucket b) := by
  induction ops with
  | nil => intro b hb; simpa
  | cons op rest ih => intro b hb; exact ih _ (issuedCountInv_stepBucket b op hb)

-- heap model lemmas
theorem readRef_writeRef_ne (s : TicketStore) :
    ∀ (i r : Nat) (t : RateLlmiterTicket), i ≠ r →
    TicketStore.readRef (TicketStore.writeRef s i t) r = TicketStore.readRef s r := by
  induction s with
  | nil => intro i r t _; cases i <;> rfl
  | cons x rest ih =>
      intro i r t hne
      cases i with
      | zero =>
          cases r with
          | zero => exact absurd rfl hne
          | succ r => rfl
      | succ i =>
          cases r with
          | zero => rfl
          | succ r =>
              simp only [TicketStore.writeRef, TicketStore.readRef]
              exact ih i r t (fun h => hne (by rw [h]))

theorem writeRef_length (s : TicketStore) :
    ∀ (i : Nat) (t : RateLlmiterTicket),
    (TicketStore.writeRef s i t).length = s.length := by
  induction s with
  | nil => intro i t; rfl
  | cons x rest ih =>
      intro i t
      cases i with
      | zero => rfl
      | succ i => simp only [TicketStore.writeRef, List.length_cons, ih]

theorem readRef_append_left (s s2 : TicketStore) :
    ∀ r : Nat, r < s.length →
    TicketStore.readRef (s ++ s2) r = TicketStore.readRef s r := by
  induction s with
  | nil => intro r hr; simp at hr
  | cons x rest ih =>
      intro r hr
      cases r with
      | zero => rfl
      | succ r =>
          simp only [List.cons_append, TicketStore.readRef]
          exact ih r (by simpa using hr)

theorem modifyRef_length (s : TicketStore) (r : Nat)
    (f : RateLlmiterTicket → RateLlmiterTicket) :
    (TicketStore.modifyRef s r f).length = s.length := by
  unfold TicketStore.modifyRef
  cases h : TicketStore.readRef s r with
  | none => rfl
  | some t => exact writeRef_length s r (f t)

theorem readRef_modifyRef_ne (s : TicketStore) (i r : Nat)
    (f : RateLlmiterTicket → RateLlmiterTicket) (hne : i ≠ r) :
    TicketStore.readRef (TicketStore.modifyRef s i f) r = TicketStore.readRef s r := by
  unfold TicketStore.modifyRef
  cases h : TicketStore.readRef s i with
  | none => rfl
  | some t => exact readRef_writeRef_ne s i r (f t) hne

theorem deepcopyRef_shape (s : TicketStore) (r : Nat) :
    ∃ t, TicketStore.deepcopyRef s r = (s ++ [t], s.length) := by
  unfold TicketStore.deepcopyRef TicketStore.allocRef
  cases TicketStore.readRef s r with
  | none => exact ⟨_, rfl⟩
  | some t => exact ⟨_, rfl⟩

theorem readRef_alloc_modify (s : TicketStore) (t : RateLlmiterTicket)
    (f : RateLlmiterTicket → RateLlmiterTicket) (r : Nat) (hr : r < s.length) :
    TicketStore.readRef (TicketStore.modifyRef (s ++ [t]) s.length f) r =
      TicketStore.readRef s r := by
  have hne : s.length ≠ r := by omega
  rw [readRef_modifyRef_ne (s ++ [t]) s.length r f hne]
  exact readRef_append_left s [t] r hr

theorem length_alloc_modify (s : TicketStore) (t : RateLlmiterTicket)
    (f : RateLlmiterTicket → RateLlmiterTicket) :
    (TicketStore.modifyRef (s ++ [t]) s.length f).length = s.length + 1 := by
  rw [modifyRef_length]
  simp

theorem transfer_rate_limited_loopH_frame_gen (l : List TicketRef) :
    ∀ (s : TicketStore) (b : SecondTicketBucketH) (rel : List TicketRef) (n : Nat),
      n ≤ s.length →
      n ≤ (SecondTicketBucketH.transfer_rate_limited_loop s b rel l).1.length ∧
      (∀ r : Nat, r < n →
        TicketStore.readRef (SecondTicketBucketH.transfer_rate_limited_loop s b rel l).1 r =
          TicketStore.readRef s r) ∧
      (∀ r : Nat, r ∈ (SecondTicketBucketH.transfer_rate_limited_loop s b rel l).2.2 →
        r ∈ rel ∨ n ≤ r) := by
  induction l with
  | nil =>
      intro s b rel n hn
      refine ⟨hn, fun r _ => rfl, fun r hr => Or.inl ?_⟩
      simpa [SecondTicketBucketH.transfer_rate_limited_loop] using hr
  | cons c rest ih =>
      intro s b rel n hn
      obtain ⟨t, hdc⟩ := deepcopyRef_shape s c
      by_cases hcap : b.issued_ticket_count < b.ticket_count
      · simp only [SecondTicketBucketH.transfer_rate_limited_loop, hdc,
          SecondTicketBucketH.issue_ticket, if_pos hcap]
        set s3 := TicketStore.modifyRef (s ++ [t]) s.length
          (fun x => x.record_issued_ticket (b.issued_ticket_count + 1) b.second_bucket_id) with hs3
        have hs3len : s3.length = s.length + 1 := length_alloc_modify s t _
        have hs3frame : ∀ r : Nat, r < s.length →
            TicketStore.readRef s3 r = TicketStore.readRef s r :=
          fun r hr => readRef_alloc_modify s t _ r hr
        have hn3 : n ≤ s3.length := by omega
        by_cases hiss : TicketStore.refHasIssuedTicket s3 s.length = false
        · simp only [if_pos hiss]
          have hih := fun b2 => ih s3 b2 rel n hn3
          refine ⟨(hih _).1, fun r hr => ?_, (hih _).2.2⟩
          have hrs : r < s.length := by omega
          rw [(hih _).2.1 r hr, hs3frame r hrs]
        · simp only [if_neg hiss]
          set s4 := TicketStore.modifyRef s3 s.length
            (fun x => x.resolve_rate_limited_event b.second_bucket_id) with hs4
          have hs4len : s4.length = s.length + 1 := by rw [hs4, modifyRef_length, hs3len]
          have hs4frame : ∀ r : Nat, r < s.length →
              TicketStore.readRef s4 r = TicketStore.readRef s r := by
            intro r hr
            have hne : s.length ≠ r := by omega
            rw [hs4, readRef_modifyRef_ne s3 s.length r _ hne]
            exact hs3frame r hr
          have hn4 : n ≤ s4.length := by omega
          have hih := fun b2 => ih s4 b2 (rel ++ [s.length]) n hn4
          refine ⟨(hih _).1, fun r hr => ?_, fun r hr => ?_⟩
          · have hrs : r < s.length := by omega
            rw [(hih _).2.1 r hr, hs4frame r hrs]
          · rcases (hih _).2.2 r hr with hmem | hge
            · rcases List.mem_append.mp hmem with h | h
              · exact Or.inl h
              · have heq : r = s.length := by simpa using h
                exact Or.inr (heq ▸ hn)
            · exact Or.inr (le_trans (by omega) hge)
      · simp only [SecondTicketBucketH.transfer_rate_limited_loop, hdc,
          SecondTicketBucketH.issue_ticket, if_neg hcap]
        have hframe2 : ∀ r : Nat, r < s.length →
            TicketStore.readRef (s ++ [t]) r = TicketStore.readRef s r :=
          fun r hr => readRef_append_left s [t] r hr
        have hn2 : n ≤ (s ++ [t]).length := by simp; omega
        by_cases hiss : TicketStore.refHasIssuedTicket (s ++ [t]) s.length = false
        · simp only [if_pos hiss]
          have hih := fun b2 => ih (s ++ [t]) b2 rel n hn2
          refine ⟨(hih _).1, fun r hr => ?_, (hih _).2.2⟩
          have hrs : r < s.length := by omega
          rw [(hih _).2.1 r hr, hframe2 r hrs]
        · simp only [if_neg hiss]
          set s4 := TicketStore.modifyRef (s ++ [t]) s.length
            (fun x => x.resolve_rate_limited_event b.second_bucket_id) with hs4
          have hs4len : s4.length = s.length + 1 := length_alloc_modify s t _
          have hs4frame : ∀ r : Nat, r < s.length →
              TicketStore.readRef s4 r = TicketStore.readRef s r :=
            fun r hr => readRef_alloc_modify s t _ r hr
          have hn4 : n ≤ s4.length := by omega
          have hih := fun b2 => ih s4 b2 (rel ++ [s.length]) n hn4
          refine ⟨(hih _).1, fun r hr => ?_, fun r hr => ?_⟩
          · have hrs : r < s.length := by omega
            rw [(hih _).2.1 r hr, hs4frame r hrs]
          · rcases (hih _).2.2 r hr with hmem | hge
            · rcases List.mem_append.mp hmem with h | h
              · exact Or.inl h
              · have heq : r = s.length := by simpa using h
                exact Or.inr (heq ▸ hn)
            · exact Or.inr (le_trans (by omega) hge)

theorem transfer_overflow_loopH_frame_gen (l : List TicketRef) :
    ∀ (s : TicketStore) (b : SecondTicketBucketH) (rel : List TicketRef) (n : Nat),
      n ≤ s.length →
      n ≤ (SecondTicketBucketH.transfer_overflow_loop s b rel l).1.length ∧
      (∀ r : Nat, r < n →
        TicketStore.readRef (SecondTicketBucketH.transfer_overflow_loop s b rel l).1 r =
          TicketStore.readRef s r) ∧
      (∀ r : Nat, r ∈ (SecondTicketBucketH.transfer_overflow_loop s b rel l).2.2 →
        r ∈ rel ∨ n ≤ r) := by
  induction l with
  | nil =>
      intro s b rel n hn
      refine ⟨hn, fun r _ => rfl, fun r hr => Or.inl ?_⟩
      simpa [SecondTicketBucketH.transfer_overflow_loop] using hr
  | cons c rest ih =>
      intro s b rel n hn
      obtain ⟨t, hdc⟩ := deepcopyRef_shape s c
      by_cases hcap : b.issued_ticket_count < b.ticket_count
      · simp only [SecondTicketBucketH.transfer_overflow_loop, hdc,
          SecondTicketBucketH.issue_ticket, if_pos hcap]
        set s3 := TicketStore.modifyRef (s ++ [t]) s.length
          (fun x => x.record_issued_ticket (b.issued_ticket_count + 1) b.second_bucket_id) with hs3
        have hs3len : s3.length = s.length + 1 := length_alloc_modify s t _
        have hs3frame : ∀ r : Nat, r < s.length →
            TicketStore.readRef s3 r = TicketStore.readRef s r :=
          fun r hr => readRef_alloc_modify s t _ r hr
        have hn3 : n ≤ s3.length := by omega
        by_cases hiss : TicketStore.refHasIssuedTicket s3 s.length = false
        · simp only [if_pos hiss]
          have hih := fun b2 => ih s3 b2 rel n hn3
          refine ⟨(hih _).1, fun r hr => ?_, (hih _).2.2⟩
          have hrs : r < s.length := by omega
          rw [(hih _).2.1 r hr, hs3frame r hrs]
        · simp only [if_neg hiss]
          have hih := fun b2 => ih s3 b2 (rel ++ [s.length]) n hn3
          refine ⟨(hih _).1, fun r hr => ?_, fun r hr => ?_⟩
          · have hrs : r < s.length := by omega
            rw [(hih _).2.1 r hr, hs3frame r hrs]
          · rcases (hih _).2.2 r hr with hmem | hge
            · rcases List.mem_append.mp hmem with h | h
              · exact Or.inl h
              · have heq : r = s.length := by simpa using h
                exact Or.inr (heq ▸ hn)
            · exact Or.inr (le_trans (by omega) hge)
      · simp only [SecondTicketBucketH.transfer_overflow_loop, hdc,
          SecondTicketBucketH.issue_ticket, if_neg hcap]
        have hframe2 : ∀ r : Nat, r < s.length →
            TicketStore.readRef (s ++ [t]) r = TicketStore.readRef s r :=
          fun r hr => readRef_append_left s [t] r hr
        have hn2 : n ≤ (s ++ [t]).length := by simp; omega
        by_cases hiss : TicketStore.refHasIssuedTicket (s ++ [t]) s.length = false
        · simp only [if_pos hiss]
          have hih := fun b2 => ih (s ++ [t]) b2 rel n hn2
          refine ⟨(hih _).1, fun r hr => ?_, (hih _).2.2⟩
          have hrs : r < s.length := by omega
          rw [(hih _).2.1 r hr, hframe2 r hrs]
        · simp only [if_neg hiss]
          have hih := fun b2 => ih (s ++ [t]) b2 (rel ++ [s.length]) n hn2
          refine ⟨(hih _).1, fun r hr => ?_, fun r hr => ?_⟩
          · have hrs : r < s.length := by omega
            rw [(hih _).2.1 r hr, hframe2 r hrs]
          · rcases (hih _).2.2 r hr with hmem | hge
            · rcases List.mem_append.mp hmem with h | h
              · exact Or.inl h
              · have heq : r = s.length := by simpa using h
                exact Or.inr (heq ▸ hn)
            · exact Or.inr (le_trans (by omega) hge)

theorem transfer_ticketsH_frame_and_fresh (s : TicketStore) (b : SecondTicketBucketH)
    (unsatisfied_request_list rate_limited_request_list : List TicketRef) :
    (∀ r : Nat, r < s.length →
      TicketStore.readRef
        (SecondTicketBucketH.transfer_tickets s b unsatisfied_request_list
          rate_limited_request_list).1 r = TicketStore.readRef s r) ∧
    (∀ r : Nat, r ∈ (SecondTicketBucketH.transfer_tickets s b unsatisfied_request_list
        rate_limited_request_list).2.2 → s.length ≤ r) := by
  unfold SecondTicketBucketH.transfer_tickets
  cases hpair : SecondTicketBucketH.transfer_rate_limited_loop s b [] rate_limited_request_list with
  | mk s2 rest2 =>
      cases rest2 with
      | mk b2 rel2 =>
          have h1 := transfer_rate_limited_loopH_frame_gen rate_limited_request_list s b []
            s.length le_rfl
          rw [hpair] at h1
          have h2 := transfer_overflow_loopH_frame_gen unsatisfied_request_list s2 b2 rel2
            s.length h1.1
          constructor
          · intro r hr
            rw [h2.2.1 r hr, h1.2.1 r hr]
          · intro r hr
            rcases h2.2.2 r hr with hmem | hge
            · rcases h1.2.2 r hmem with hfalse | hge2
              · simp at hfalse
              · exact hge2
            · exact hge

/-! Claim theorems. -/

/-- Claim C1.  The claim states that the RateLimitedEvent appended by
add_rate_limit records the second id in which the ticket had been issued, in
particular a non null value for a ticket holding an issued second id.  The
code clears the ticket's issuance fields before constructing the event, so
the issued second field of the appended event is always none, whatever the
ticket's issued second id was: this theorem evaluates the code and exhibits
the divergence (the appended event equals the one built from the cleared
field, never from the previously held second id). -/
theorem claim1_add_rate_limit_event_issued_second_is_none :
    ∀ (b : SecondTicketBucket) (t : RateLlmiterTicket),
      (b.add_rate_limited_request t).rate_limited_request_list.getLast? =
        some (t.add_rate_limited_event b.second_bucket_id) ∧
      (t.add_rate_limited_event b.second_bucket_id).rate_limit_event_list.getLast? =
        some { second_bucket_ticket_was_issued := none,
               second_bucket_ticket_was_limited := b.second_bucket_id,
               reissued_second_bucket_id := none } := by
  intro b t
  constructor
  · simp [SecondTicketBucket.add_rate_limited_request, List.getLast?_concat]
  · simp [RateLlmiterTicket.add_rate_limited_event, List.getLast?_concat]

/-- Claim C2.  The claim states that an unblocked probe clears the paused
flag, drops the probe timer and resets the probe interval to 10.  Evaluating
the code on a paused limiter whose interval has been backed off to 15: the
flag is cleared and the timer dropped, but service_test_interval stays 15
(the value 10 is written to the stray attribute service_test_delay instead),
so the next pause does not start probing at 10 seconds. -/
theorem claim2_resume_probe_leaves_interval_unchanged :
    (BucketRateLimiter.test_if_service_resumed samplePausedLockState
        (Except.ok false)).map (fun st => st.is_paused_by_rate_limit_exception) =
      Except.ok false ∧
    (BucketRateLimiter.test_if_service_resumed samplePausedLockState
        (Except.ok false)).map (fun st => st.test_if_service_resumed_timer) =
      Except.ok none ∧
    (BucketRateLimiter.test_if_service_resumed samplePausedLockState
        (Except.ok false)).map (fun st => st.service_test_interval) =
      Except.ok 15 ∧
    (BucketRateLimiter.test_if_service_resumed samplePausedLockState
        (Except.ok false)).map (fun st => st.service_test_delay) =
      Except.ok (some 10) ∧
    (15 : Rat) ≠ 10 := by
  refine ⟨rfl, rfl, rfl, rfl, by norm_num⟩

/-- Claim C3.  The claim states that a Waiter already signalled when the
parked caller begins its blocking wait lets the caller proceed immediately.
WaitingTicket.wait starts with event.clear(), so for every waiter, even one
whose resume_request already ran (flag set), the flag is false at the moment
the blocking event.wait() begins: the pre wait signal is erased and the
caller blocks. -/
theorem claim3_wait_entry_clears_prior_signal :
    ∀ w : WaitingTicket,
      (w.resume_request).event.flag_is_set = true ∧
      ((w.resume_request).waitEntry).event.waitReturnsWithoutBlocking = false := by
  intro w
  exact ⟨rfl, rfl⟩

/-- Claim C4.  The claim states that an exception from the is-blocked probe
predicate is treated as still blocked (stay paused, back off, reschedule).
The code calls the predicate with no try/except, so for every limiter state
the exception propagates out of test_if_service_resumed: no back off, no
reschedule, and the limiter is left paused with a dead timer. -/
theorem claim4_probe_exception_escapes_unhandled :
    ∀ st : BucketRateLimiterLock,
      BucketRateLimiter.test_if_service_resumed st (Except.error ()) =
        Except.error () := by
  intro st
  rfl

/-- Claim C5.  Closed form of transfer_tickets for candidates carried over
from the previous second (never issued candidates; rate limited candidates
carry at least one rate limit event, as Python would raise on resolving an
empty event list).  Writing slack for the remaining inventory
(ticket_count - issued_ticket_count, floored at zero), krl for
min (length rate limited) slack and kof for min (length overflow)
(slack - krl): every rate limited candidate is attempted before any overflow
candidate and only the leftover inventory goes to overflow; each class is
processed in FIFO order; the first krl rate limited candidates are issued
consecutive ticket numbers starting above the prior issued count and get
their trailing RateLimitEvent stamped with this bucket's id; the first kof
overflow candidates follow with the next ticket numbers, unstamped; the
failed candidates are appended, unchanged, to this bucket's corresponding
lists; and the returned list is exactly the promoted tickets, rate limited
first, each class in order. -/
theorem claim5_transfer_tickets_carry_over_spec (b : SecondTicketBucket)
    (unsatisfied_request_list rate_limited_request_list : List RateLlmiterTicket)
    (hrl : ∀ t ∈ rate_limited_request_list,
      t.issued_ticket = none ∧ t.rate_limit_event_list ≠ [])
    (hof : ∀ t ∈ unsatisfied_request_list, t.issued_ticket = none) :
    b.transfer_tickets unsatisfied_request_list rate_limited_request_list =
      ({ b with
          issued_ticket_count := b.issued_ticket_count +
            ((min rate_limited_request_list.length
               (b.ticket_count - b.issued_ticket_count).toNat : Nat) : Int) +
            ((min unsatisfied_request_list.length
               ((b.ticket_count - b.issued_ticket_count).toNat -
                 min rate_limited_request_list.length
                   (b.ticket_count - b.issued_ticket_count).toNat) : Nat) : Int),
          issued_ticket_list := b.issued_ticket_list ++
            reissuedFrom b.second_bucket_id true b.issued_ticket_count
              (rate_limited_request_list.take
                (min rate_limited_request_list.length
                  (b.ticket_count - b.issued_ticket_count).toNat)) ++
            reissuedFrom b.second_bucket_id false
              (b.issued_ticket_count +
                ((min rate_limited_request_list.length
                   (b.ticket_count - b.issued_ticket_count).toNat : Nat) : Int))
              (unsatisfied_request_list.take
                (min unsatisfied_request_list.length
                  ((b.ticket_count - b.issued_ticket_count).toNat -
                    min rate_limited_request_list.length
                      (b.ticket_count - b.issued_ticket_count).toNat))),
          rate_limited_request_list := b.rate_limited_request_list ++
            rate_limited_request_list.drop
              (min rate_limited_request_list.length
                (b.ticket_count - b.issued_ticket_count).toNat),
          overflow_request_list := b.overflow_request_list ++
            unsatisfied_request_list.drop
              (min unsatisfied_request_list.length
                ((b.ticket_count - b.issued_ticket_count).toNat -
                  min rate_limited_request_list.length
                    (b.ticket_count - b.issued_ticket_count).toNat)) },
       reissuedFrom b.second_bucket_id true b.issued_ticket_count
         (rate_limited_request_list.take
           (min rate_limited_request_list.length
             (b.ticket_count - b.issued_ticket_count).toNat)) ++
       reissuedFrom b.second_bucket_id false
         (b.issued_ticket_count +
           ((min rate_limited_request_list.length
              (b.ticket_count - b.issued_ticket_count).toNat : Nat) : Int))
         (unsatisfied_request_list.take
           (min unsatisfied_request_list.length
             ((b.ticket_count - b.issued_ticket_count).toNat -
               min rate_limited_request_list.length
                 (b.ticket_count - b.issued_ticket_count).toNat)))) :=
  transfer_tickets_spec b unsatisfied_request_list rate_limited_request_list
    (fun t ht => (hrl t ht).1) hof

/-- Claim C5 witness: concrete carry over into a bucket with two tickets of
inventory, one rate limited and two overflow candidates.  The hypotheses hold
and, by the theorem, the released list is the rate limited ticket reissued
with number 1 followed by the first overflow ticket with number 2, while the
second overflow candidate stays on the overflow list. -/
theorem claim5_transfer_tickets_carry_over_spec_witness :
    (∀ t ∈ [sampleRateLimitedTicket],
      t.issued_ticket = none ∧ t.rate_limit_event_list ≠ []) ∧
    (∀ t ∈ [sampleFreshTicket, sampleFreshTicket], t.issued_ticket = none) ∧
    (sampleBucket.transfer_tickets [sampleFreshTicket, sampleFreshTicket]
        [sampleRateLimitedTicket]).2.map RateLlmiterTicket.issued_ticket =
      [some 1, some 2] ∧
    (sampleBucket.transfer_tickets [sampleFreshTicket, sampleFreshTicket]
        [sampleRateLimitedTicket]).1.overflow_request_list = [sampleFreshTicket] := by
  refine ⟨by decide, by decide, ?_, ?_⟩ <;>
    rw [claim5_transfer_tickets_carry_over_spec sampleBucket
      [sampleFreshTicket, sampleFreshTicket] [sampleRateLimitedTicket]
      (by decide) (by decide)] <;> decide

/-- Claim C6.  set_ticket_count: whenever the arguments describe a genuine
interval (min ≤ max, true of every call the limiter makes, since the start
ramp never exceeds the per second maximum), the resulting inventory is max
when the prior bucket issued exactly max, and otherwise prior + delta clamped
to the interval. -/
theorem claim6_set_ticket_count_clamp (b : SecondTicketBucket)
    (max_ticket_count min_ticket_count prior_bucket_issued_tickets ticket_count_delta : Int)
    (h : min_ticket_count ≤ max_ticket_count) :
    (b.set_ticket_count max_ticket_count min_ticket_count prior_bucket_issued_tickets
        ticket_count_delta).ticket_count =
      if prior_bucket_issued_tickets = max_ticket_count then max_ticket_count
      else max (min (prior_bucket_issued_tickets + ticket_count_delta) max_ticket_count)
        min_ticket_count := by
  unfold SecondTicketBucket.set_ticket_count
  dsimp only
  split_ifs <;> omega

/-- Claim C6 witness: with max 10, min 3, prior 5, delta 1 the hypothesis
holds and the new inventory is 6. -/
theorem claim6_set_ticket_count_clamp_witness :
    ((3 : Int) ≤ 10) ∧
    ((SecondTicketBucket.init 0).set_ticket_count 10 3 5 1).ticket_count = 6 := by
  refine ⟨by decide, ?_⟩
  rw [claim6_set_ticket_count_clamp (SecondTicketBucket.init 0) 10 3 5 1 (by decide)]
  decide

/-- Claim C7.  After every sequence of operations on a fresh SecondBucket the
issued counter equals the length of the issued ticket list, and issue_ticket,
the single point through which every issuance goes, succeeds exactly when the
issued counter is strictly below the inventory at that moment (so a later
set_ticket_count to zero cannot retroactively break the accounting: the guard
is evaluated on the state at issuance time). -/
theorem claim7_issued_count_invariant_and_guard :
    (∀ (second_bucket_id : Int) (ops : List BucketOp),
      issuedCountInv (ops.foldl stepBucket (SecondTicketBucket.init second_bucket_id))) ∧
    (∀ (b : SecondTicketBucket) (t : RateLlmiterTicket),
      ((b.issue_ticket t).2.2 = true ↔ b.issued_ticket_count < b.ticket_count)) := by
  constructor
  · intro second_bucket_id ops
    apply issuedCountInv_foldl
    simp [issuedCountInv, SecondTicketBucket.init]
  · intro b t
    unfold SecondTicketBucket.issue_ticket
    by_cases h : b.issued_ticket_count < b.ticket_count
    · simp [h]
    · simp [h]

/-- Claim C8.  The log round trip law: serialising any MinuteTicketBucket to
its log representation and parsing it back yields the original structure (the
60 SecondBuckets with their ticket lists and every RateLimitEvent history
included). -/
theorem claim8_minute_bucket_log_roundtrip (m : MinuteTicketBucket) :
    MinuteTicketBucket.from_dict m.to_dict = some m := by
  simp [MinuteTicketBucket.from_dict, MinuteTicketBucket.to_dict, lookupField,
    logToOptStr_optStrToLog, logToInt, logToArr, decodeSecondBucketLogList_roundtrip]

/-- Claim C9 counterexample.  The claim puts the third blocked probe at 22
seconds, floored from 22.5.  Evaluating the code: from the freshly paused
state (interval 10) a blocked probe reschedules at 15, and from interval 15 a
blocked probe reschedules at 45/2 = 22.5, which is not 22 - the interval is a
float and no flooring occurs. -/
theorem claim9_third_probe_interval_is_not_22 :
    (BucketRateLimiter.test_if_service_resumed sampleFreshPausedLockState
        (Except.ok true)).map (fun st => st.test_if_service_resumed_timer) =
      Except.ok (some 15) ∧
    (BucketRateLimiter.test_if_service_resumed samplePausedLockState
        (Except.ok true)).map (fun st => st.test_if_service_resumed_timer) =
      Except.ok (some (45 / 2)) ∧
    (45 / 2 : Rat) ≠ 22 := by
  refine ⟨?_, ?_, by norm_num⟩ <;>
    · simp [BucketRateLimiter.test_if_service_resumed,
        BucketRateLimiter.start_test_if_service_resumed_timer,
        sampleFreshPausedLockState, samplePausedLockState, BucketRateLimiterLock.init,
        MIN_TEST_IF_SERVICE_RESUMED_INTERVAL, MAX_TEST_IF_SERVICE_RESUMED_INTERVAL,
        INTERVAL_BACKOFF_RATE, min_def, Except.map]
      norm_num

/-- Claim C9 amended.  While paused, each blocked probe sets the interval to
min(old * 1.5, 65) and reschedules the timer at the new interval; starting
from the initial 10 second interval the three blocked probes are scheduled at
10, 15 and 22.5 seconds (the multiplication is exact on these values and the
code does not floor), and the interval never exceeds the 65 second cap. -/
theorem claim9_probe_backoff_amended :
    sampleFreshPausedLockState.test_if_service_resumed_timer = some 10 ∧
    sampleFreshPausedLockState.service_test_interval = 10 ∧
    (∀ st : BucketRateLimiterLock,
      (BucketRateLimiter.test_if_service_resumed st (Except.ok true)).map
          (fun st2 => st2.service_test_interval) =
        Except.ok (min (st.service_test_interval * INTERVAL_BACKOFF_RATE)
          MAX_TEST_IF_SERVICE_RESUMED_INTERVAL) ∧
      (BucketRateLimiter.test_if_service_resumed st (Except.ok true)).map
          (fun st2 => st2.test_if_service_resumed_timer) =
        Except.ok (some (min (st.service_test_interval * INTERVAL_BACKOFF_RATE)
          MAX_TEST_IF_SERVICE_RESUMED_INTERVAL))) ∧
    min ((10 : Rat) * INTERVAL_BACKOFF_RATE) MAX_TEST_IF_SERVICE_RESUMED_INTERVAL = 15 ∧
    min ((15 : Rat) * INTERVAL_BACKOFF_RATE) MAX_TEST_IF_SERVICE_RESUMED_INTERVAL = 45 / 2 ∧
    (∀ q : Rat,
      min (q * INTERVAL_BACKOFF_RATE) MAX_TEST_IF_SERVICE_RESUMED_INTERVAL ≤ 65) := by
  refine ⟨rfl, rfl, fun st => ⟨rfl, rfl⟩, ?_, ?_, fun q => ?_⟩
  · rw [INTERVAL_BACKOFF_RATE, MAX_TEST_IF_SERVICE_RESUMED_INTERVAL, min_def]
    norm_num
  · rw [INTERVAL_BACKOFF_RATE, MAX_TEST_IF_SERVICE_RESUMED_INTERVAL, min_def]
    norm_num
  · rw [MAX_TEST_IF_SERVICE_RESUMED_INTERVAL]
    exact min_le_right _ _

/-- Claim C10.  On the ticket store model of transfer_tickets, every ticket
object that existed before the call - in particular every object referenced
by the previous bucket's overflow and rate limited lists - is unchanged
afterwards (each candidate is deep copied before processing), and every
released, i.e. promoted, reference is a freshly allocated object, so the
promoted ticket exists as a new object in the new bucket while the original,
still in its pre promotion state, remains in the source bucket's list (and
both are serialised when the log is written). -/
theorem claim10_transfer_preserves_previous_ticket_objects
    (s : TicketStore) (b : SecondTicketBucketH)
    (unsatisfied_request_list rate_limited_request_list : List TicketRef) :
    (∀ r : Nat, r < s.length →
      TicketStore.readRef
        (SecondTicketBucketH.transfer_tickets s b unsatisfied_request_list
          rate_limited_request_list).1 r = TicketStore.readRef s r) ∧
    (∀ r : Nat, r ∈ (SecondTicketBucketH.transfer_tickets s b unsatisfied_request_list
        rate_limited_request_list).2.2 → s.length ≤ r) :=
  transfer_ticketsH_frame_and_fresh s b unsatisfied_request_list rate_limited_request_list

/-- Claim C10 witness: a store holding one rate limited ticket, carried into
a bucket with inventory 1.  The original object (reference 0) is unchanged by
the transfer, and the released reference is the fresh copy, reference 1. -/
theorem claim10_transfer_preserves_previous_ticket_objects_witness :
    (0 < sampleStore.length) ∧
    TicketStore.readRef
      (SecondTicketBucketH.transfer_tickets sampleStore sampleBucketH [] [0]).1 0 =
      TicketStore.readRef sampleStore 0 ∧
    (1 ∈ (SecondTicketBucketH.transfer_tickets sampleStore sampleBucketH [] [0]).2.2) ∧
    sampleStore.length ≤ 1 := by
  refine ⟨by decide, ?_, by decide, ?_⟩
  · exact (claim10_transfer_preserves_previous_ticket_objects sampleStore sampleBucketH
      [] [0]).1 0 (by decide)
  · exact (claim10_transfer_preserves_previous_ticket_objects sampleStore sampleBucketH
      [] [0]).2 1 (by decide)
